import Mathlib

/-
A shallow embedding of the core of the AgentAbilityEngine repository:

* `app/core/ability_manager.py` — the name-keyed capability registry and
  its dispatcher (`AbilityManager.register` / `get_ability` /
  `execute_ability`);
* `app/abilities/search/product_search.py` — the resilient product-search
  capability (`ProductSearchAbility.validate` / `execute`, the retrying
  `_fuzzy_search` primary query and the `_get_fallback_recommendations`
  fallback query).

Modelling conventions:

* Python exceptions become values of `PyError`; `str(e)` is modelled as the
  message string carried by the error.
* The external Elasticsearch engine is abstracted as an `EngineBehavior`
  oracle that fixes, for each attempt of the primary and the fallback
  query, whether the `es_client.search` call returns a response or raises,
  what happens in the ping/reconnect gap between retries, the outcome of
  the initial `_get_es_client()` call, and the index `random.choice` picks
  into the fallback keyword list.
* Relevance scores (Python floats compared with `<` only) are modelled as
  rationals.
* External interactions are recorded in a `SearchEvent` trace so that
  "no external call is made" and "the fallback query runs" are observable.
-/

namespace AgentAbilityEngine

/-- A Python exception as the search code distinguishes them:
`elasticsearch.exceptions.ConnectionError` versus any other `Exception`.
The carried string models `str(e)`. -/
inductive PyError where
  | connectionError (msg : String)
  | otherError (msg : String)
deriving DecidableEq, Repr

/-- The message of an exception, i.e. the model of Python `str(e)`. -/
def PyError.msg : PyError → String
  | .connectionError m => m
  | .otherError m => m

/-- The ASCII whitespace characters removed by Python `str.strip()`. -/
def isPyWhitespace (c : Char) : Bool :=
  c = ' ' || c = '\t' || c = '\n' || c = '\r' || c = '\x0b' || c = '\x0c'

/-- Python `s.strip()`: drop leading and trailing whitespace. -/
def pyStrip (s : String) : String :=
  String.mk (((s.data.dropWhile isPyWhitespace).reverse.dropWhile isPyWhitespace).reverse)

namespace ProductSearchAbility

/-- The tunables the search code reads from `self.search_config` and
`self.fallback_config`, with the in-code defaults.  `index` and
`fuzziness` only shape the query body sent to the abstracted engine and
do not influence result processing, so they are not carried here. -/
structure Config where
  default_size : Nat := 5
  min_score : ℚ := 1/2
  fallback_enabled : Bool := true
  fallback_keywords : List String := ["耳环", "手链", "耳饰"]
  fallback_size : Nat := 3

/-- The shape of `response["hits"]["total"]` in an engine response. -/
inductive RespTotal where
  /-- A dict `{"value": v}` (Elasticsearch 7.x+). -/
  | dictValue (v : Nat)
  /-- A bare number (Elasticsearch 6.x and earlier). -/
  | scalar (v : Nat)
  /-- A dict without a `"value"` key: the `isinstance`/`"value" in` guard
  fails, and the `else` branch stores the dict object itself as the total. -/
  | dictNoValue
  /-- Reading the total raises `KeyError`/`TypeError` (e.g. the key is
  absent); the handler falls back to counting the returned hits. -/
  | missing
deriving DecidableEq, Repr

/-- The value the code ends up storing as the (original) total: a number,
or the unparsed dict object passed through as-is. -/
inductive TotalCount where
  | num (n : Nat)
  | rawDict
deriving DecidableEq, Repr

/-- The total-normalization logic shared by `_fuzzy_search` and
`_get_fallback_recommendations`: `try: if isinstance(total, dict) and
"value" in total: total = total["value"] else: total = hits.total
except (KeyError, TypeError): total = len(hits)`. -/
def normalizeTotal : RespTotal → Nat → TotalCount
  | .dictValue v, _ => .num v
  | .scalar v, _ => .num v
  | .dictNoValue, _ => .rawDict
  | .missing, hitsLen => .num hitsLen

/-- The `_source` dict of a hit; fields are read with `.get(key, "")`,
so each is optional with default `""`.  Keys: `款号` (style number),
`产品名称` (product name), `品目` (category). -/
structure HitSource where
  style_number : Option String := none
  product_name : Option String := none
  category : Option String := none
deriving DecidableEq, Repr

/-- One element of `response["hits"]["hits"]`: its `_source` and `_score`. -/
structure RawHit where
  source : HitSource
  score : ℚ
deriving DecidableEq, Repr

/-- An engine response, reduced to the parts the code reads:
`response["hits"]["total"]` and `response["hits"]["hits"]`. -/
structure Response where
  total : RespTotal
  hits : List RawHit
deriving DecidableEq, Repr

/-- A formatted product dict as built in the result lists. -/
structure Product where
  style_number : String
  product_name : String
  category : String
  score : ℚ
  is_fallback : Bool
  fallback_keyword : Option String := none
deriving DecidableEq, Repr

/-- The result dict returned by `execute` and its helpers.  Keys that are
present only on some paths are `Option`s, `none` meaning absent. -/
structure SearchResult where
  success : Bool
  results : List Product
  total : Nat
  is_fallback : Bool
  original_total : Option TotalCount := none
  fallback_keyword : Option String := none
  original_keyword : Option String := none
  error : Option String := none
deriving DecidableEq, Repr

/-- What one `es_client.search(...)` call does: return a response, raise a
`ConnectionError`, or raise some other `Exception`. -/
inductive AttemptOutcome where
  | ok (resp : Response)
  | connError (msg : String)
  | otherError (msg : String)
deriving DecidableEq, Repr

/-- The failure message of an attempt, `none` when the attempt succeeded. -/
def AttemptOutcome.failMsg : AttemptOutcome → Option String
  | .ok _ => none
  | .connError m => some m
  | .otherError m => some m

/-- What happens in the ping/reconnect block between two attempts after a
`ConnectionError`: either control reaches the next attempt (ping true, or
ping false/raise followed by a successful `_get_es_client()`), or the
reconnection itself raises a `ConnectionError` that escapes the loop. -/
inductive GapOutcome where
  | fine
  | raised (msg : String)
deriving DecidableEq, Repr

/-- The oracle for everything the external engine decides during one
`execute` call. -/
structure EngineBehavior where
  /-- Outcome of the `_get_es_client()` call at the top of `execute`. -/
  connect : Except String Unit
  /-- Outcome of primary-query attempt `i` (0-based). -/
  primaryOutcomes : Nat → AttemptOutcome
  /-- Outcome of the ping/reconnect gap after primary attempt `i`. -/
  primaryGaps : Nat → GapOutcome
  /-- The index `random.choice` picks into the fallback keyword list. -/
  fallbackChoiceIdx : Nat
  /-- Outcome of fallback-query attempt `i` (0-based). -/
  fallbackOutcomes : Nat → AttemptOutcome
  /-- Outcome of the ping/reconnect gap after fallback attempt `i`. -/
  fallbackGaps : Nat → GapOutcome

/-- Observable external interactions of one `execute` call. -/
inductive SearchEvent where
  /-- The `_get_es_client()` call at the top of `execute`. -/
  | connect
  /-- The `es_client.search` call of primary attempt `i`. -/
  | primaryQuery (attempt : Nat)
  /-- A `time.sleep(dur)` backoff wait. -/
  | sleepEvent (dur : Nat)
  /-- The `es_client.search` call of fallback attempt `i`. -/
  | fallbackQuery (attempt : Nat)
deriving DecidableEq, Repr

/-- `max_attempts = 3` in both query loops. -/
def max_attempts : Nat := 3

/-- The product dict built for a kept primary hit. -/
def primaryProduct (h : RawHit) : Product :=
  { style_number := h.source.style_number.getD ""
    product_name := h.source.product_name.getD ""
    category := h.source.category.getD ""
    score := h.score
    is_fallback := false }

/-- The product dict built for a fallback hit (no score filter). -/
def fallbackProduct (kw : String) (h : RawHit) : Product :=
  { style_number := h.source.style_number.getD ""
    product_name := h.source.product_name.getD ""
    category := h.source.category.getD ""
    score := h.score
    is_fallback := true
    fallback_keyword := some kw }

/-- Successful-response processing in `_fuzzy_search`: normalize the
total, drop hits with `score < min_score`, and build the result dict. -/
def processPrimaryResponse (minScore : ℚ) (resp : Response) : SearchResult :=
  let kept := resp.hits.filter (fun h => !decide (h.score < minScore))
  { success := true
    results := kept.map primaryProduct
    total := (kept.map primaryProduct).length
    original_total := some (normalizeTotal resp.total resp.hits.length)
    is_fallback := false }

/-- Successful-response processing in `_get_fallback_recommendations`:
no score filter, every product tagged with the fallback keyword. -/
def processFallbackResponse (kw : String) (resp : Response) : SearchResult :=
  { success := true
    results := resp.hits.map (fallbackProduct kw)
    total := (resp.hits.map (fallbackProduct kw)).length
    original_total := some (normalizeTotal resp.total resp.hits.length)
    is_fallback := true
    fallback_keyword := some kw }

/-- The message of the `ConnectionError` raised after the primary loop
exhausts its attempts: `f"经过 3 次尝试后搜索失败。最后错误: {str(last_exception)}"`. -/
def searchExhaustMsg (lastExc : Option String) : String :=
  "经过 " ++ toString max_attempts ++ " 次尝试后搜索失败。最后错误: " ++ lastExc.getD "None"

/-- The structured result returned when the fallback loop exhausts its
attempts (instead of raising). -/
def fallbackExhaustResult (kw : String) (lastExc : Option String) : SearchResult :=
  { success := false
    results := []
    total := 0
    original_total := some (.num 0)
    is_fallback := true
    fallback_keyword := some kw
    error := some ("Fallback search failed: " ++ lastExc.getD "None") }

/-- The retry loop of `_fuzzy_search`, recursing on the remaining number
of attempts (`fuel`); `attempt` is the 0-based index of the current
attempt and `lastExc` models `last_exception`.  Returns the result of
the loop (a result dict, or the exception it raises) together with the
trace of external interactions.  On a failure that is not the last
attempt the code sleeps `1 * (attempt + 1)` seconds; after a
`ConnectionError` it additionally runs the ping/reconnect gap, which may
itself raise out of the function. -/
def fuzzyLoop (minScore : ℚ) (outcomes : Nat → AttemptOutcome)
    (gaps : Nat → GapOutcome) :
    Nat → Nat → Option String → Except PyError SearchResult × List SearchEvent
  | 0, _, lastExc =>
    (.error (.connectionError (searchExhaustMsg lastExc)), [])
  | fuel + 1, attempt, _ =>
    match outcomes attempt with
    | .ok resp =>
      (.ok (processPrimaryResponse minScore resp), [.primaryQuery attempt])
    | .connError m =>
      if fuel = 0 then
        (.error (.connectionError (searchExhaustMsg (some m))), [.primaryQuery attempt])
      else
        match gaps attempt with
        | .fine =>
          let rest := fuzzyLoop minScore outcomes gaps fuel (attempt + 1) (some m)
          (rest.1, .primaryQuery attempt :: .sleepEvent (attempt + 1) :: rest.2)
        | .raised gm =>
          (.error (.connectionError gm), [.primaryQuery attempt, .sleepEvent (attempt + 1)])
    | .otherError m =>
      if fuel = 0 then
        (.error (.connectionError (searchExhaustMsg (some m))), [.primaryQuery attempt])
      else
        let rest := fuzzyLoop minScore outcomes gaps fuel (attempt + 1) (some m)
        (rest.1, .primaryQuery attempt :: .sleepEvent (attempt + 1) :: rest.2)

/-- `_fuzzy_search`: run the retry loop from attempt 0 with 3 attempts. -/
def fuzzy_search (minScore : ℚ) (outcomes : Nat → AttemptOutcome)
    (gaps : Nat → GapOutcome) : Except PyError SearchResult × List SearchEvent :=
  fuzzyLoop minScore outcomes gaps max_attempts 0 none

/-- `random.choice(keywords)`, abstracted by the oracle-chosen index. -/
def chooseFallbackKeyword (kws : List String) (idx : Nat) : String :=
  kws.getD (idx % kws.length) ""

/-- The retry loop of `_get_fallback_recommendations`.  Same structure as
`fuzzyLoop`, but exhaustion returns a structured non-success result
instead of raising; a raise can still escape from the reconnect gap. -/
def fallbackLoop (kw : String) (outcomes : Nat → AttemptOutcome)
    (gaps : Nat → GapOutcome) :
    Nat → Nat → Option String → Except PyError SearchResult × List SearchEvent
  | 0, _, lastExc =>
    (.ok (fallbackExhaustResult kw lastExc), [])
  | fuel + 1, attempt, _ =>
    match outcomes attempt with
    | .ok resp =>
      (.ok (processFallbackResponse kw resp), [.fallbackQuery attempt])
    | .connError m =>
      if fuel = 0 then
        (.ok (fallbackExhaustResult kw (some m)), [.fallbackQuery attempt])
      else
        match gaps attempt with
        | .fine =>
          let rest := fallbackLoop kw outcomes gaps fuel (attempt + 1) (some m)
          (rest.1, .fallbackQuery attempt :: .sleepEvent (attempt + 1) :: rest.2)
        | .raised gm =>
          (.error (.connectionError gm), [.fallbackQuery attempt, .sleepEvent (attempt + 1)])
    | .otherError m =>
      if fuel = 0 then
        (.ok (fallbackExhaustResult kw (some m)), [.fallbackQuery attempt])
      else
        let rest := fallbackLoop kw outcomes gaps fuel (attempt + 1) (some m)
        (rest.1, .fallbackQuery attempt :: .sleepEvent (attempt + 1) :: rest.2)

/-- `_get_fallback_recommendations`: choose the keyword, then run the
fallback retry loop from attempt 0 with 3 attempts. -/
def get_fallback_recommendations (cfg : Config) (eng : EngineBehavior) :
    Except PyError SearchResult × List SearchEvent :=
  fallbackLoop (chooseFallbackKeyword cfg.fallback_keywords eng.fallbackChoiceIdx)
    eng.fallbackOutcomes eng.fallbackGaps max_attempts 0 none

/-- The invocation context, reduced to the keys `execute` reads.
`keyword = none` models a context without a (string) `"keyword"` key. -/
structure Context where
  keyword : Option String := none
  size : Option Nat := none

/-- `ProductSearchAbility.validate`: `"keyword" in context and
isinstance(context["keyword"], str)`. -/
def validate (ctx : Context) : Bool :=
  ctx.keyword.isSome

/-- The result returned for an empty/whitespace-only keyword. -/
def emptyKeywordResult : SearchResult :=
  { success := false
    error := some "Empty search keyword"
    results := []
    total := 0
    is_fallback := false }

/-- The result built by the `except Exception` handler of `execute`:
`{"success": False, "error": f"Search error: {str(e)}", "results": [],
"total": 0, "is_fallback": False}`. -/
def searchErrorResult (msg : String) : SearchResult :=
  { success := false
    error := some ("Search error: " ++ msg)
    results := []
    total := 0
    is_fallback := false }

/-- `ProductSearchAbility.execute`.  Strips the keyword and rejects it if
empty; otherwise acquires the client, runs the primary query, runs the
fallback query when the primary result has zero (post-filter) hits and
fallback is enabled, and converts any exception escaping those steps into
a `searchErrorResult`.  Returns the result dict together with the trace
of external interactions. -/
def execute (cfg : Config) (eng : EngineBehavior) (ctx : Context) :
    SearchResult × List SearchEvent :=
  let keyword := pyStrip (ctx.keyword.getD "")
  if keyword = "" then
    (emptyKeywordResult, [])
  else
    match eng.connect with
    | .error m => (searchErrorResult m, [.connect])
    | .ok _ =>
      let pr := fuzzy_search cfg.min_score eng.primaryOutcomes eng.primaryGaps
      match pr.1 with
      | .error e => (searchErrorResult e.msg, .connect :: pr.2)
      | .ok sr =>
        if sr.total = 0 ∧ cfg.fallback_enabled = true then
          let fr := get_fallback_recommendations cfg eng
          match fr.1 with
          | .error e => (searchErrorResult e.msg, .connect :: (pr.2 ++ fr.2))
          | .ok f =>
            ({ f with is_fallback := true, original_keyword := some keyword },
             .connect :: (pr.2 ++ fr.2))
        else
          (sr, .connect :: pr.2)

end ProductSearchAbility

/-- An error escaping `AbilityManager.execute_ability`: the `KeyError`
raised by `get_ability`, the `ValueError` raised on failed validation,
or an exception propagated unchanged from the ability's own
`validate`/`execute`. -/
inductive MgrError where
  | keyError (msg : String)
  | valueError (msg : String)
  | abilityError (e : PyError)
deriving DecidableEq, Repr

/-- A capability implementing the `BaseAbility` contract, abstract over
its context and result types.  `validate` and `execute` may raise, which
is modelled with `Except`. -/
structure Ability (Ctx Res : Type) where
  name : String
  version : String
  validate : Ctx → Except PyError Bool
  execute : Ctx → Except PyError Res

/-- An observable call the dispatcher makes into a capability. -/
inductive MgrEvent where
  | validateCall (name : String)
  | executeCall (name : String)
deriving DecidableEq, Repr

/-- `AbilityManager`: the `self._abilities` dict, as an association list
with at most one entry per name (maintained by `register`). -/
structure AbilityManager (Ctx Res : Type) where
  abilities : List (String × Ability Ctx Res)

namespace AbilityManager

/-- `register`: store the ability under `ability.name`, overwriting any
prior entry with the same name. -/
def register (m : AbilityManager Ctx Res) (a : Ability Ctx Res) :
    AbilityManager Ctx Res :=
  if m.abilities.any (fun p => p.1 == a.name) then
    ⟨m.abilities.map (fun p => if p.1 == a.name then (a.name, a) else p)⟩
  else
    ⟨m.abilities ++ [(a.name, a)]⟩

/-- `get_ability`: raise `KeyError(f"Ability {name} not found")` when the
name is absent, otherwise return the stored ability. -/
def get_ability (m : AbilityManager Ctx Res) (name : String) :
    Except MgrError (Ability Ctx Res) :=
  match m.abilities.lookup name with
  | none => .error (.keyError ("Ability " ++ name ++ " not found"))
  | some a => .ok a

/-- `execute_ability`: look the ability up, call its `validate`, raise
`ValueError(f"Invalid context for ability {name}")` when validation
returns false, otherwise call its `execute` and return the result
unchanged.  Also returns the trace of calls made into the ability. -/
def execute_ability (m : AbilityManager Ctx Res) (name : String) (ctx : Ctx) :
    Except MgrError Res × List MgrEvent :=
  match get_ability m name with
  | .error e => (.error e, [])
  | .ok a =>
    match a.validate ctx with
    | .error e => (.error (.abilityError e), [.validateCall name])
    | .ok false =>
      (.error (.valueError ("Invalid context for ability " ++ name)), [.validateCall name])
    | .ok true =>
      match a.execute ctx with
      | .error e => (.error (.abilityError e), [.validateCall name, .executeCall name])
      | .ok r => (.ok r, [.validateCall name, .executeCall name])

end AbilityManager

namespace ProductSearchAbility

/-! Concrete fixtures used to evaluate the model on closed inputs. -/

/-- The configuration with all in-code defaults. -/
def defaultConfig : Config := {}

/-- An engine that connects but fails every primary and fallback search
attempt with a connection error; all retry gaps are benign. -/
def engineAllFail : EngineBehavior :=
  { connect := .ok ()
    primaryOutcomes := fun _ => .connError "boom"
    primaryGaps := fun _ => .fine
    fallbackChoiceIdx := 0
    fallbackOutcomes := fun _ => .connError "fb boom"
    fallbackGaps := fun _ => .fine }

/-- A primary response with zero hits (scalar total 0). -/
def respZero : Response := { total := .scalar 0, hits := [] }

/-- An engine whose primary query immediately returns `respZero` and
whose fallback attempts all fail with connection errors. -/
def engineZeroHits : EngineBehavior :=
  { connect := .ok ()
    primaryOutcomes := fun _ => .ok respZero
    primaryGaps := fun _ => .fine
    fallbackChoiceIdx := 0
    fallbackOutcomes := fun _ => .connError "fb down"
    fallbackGaps := fun _ => .fine }

/-- A response with one hit below the default minimum score and one
above it, and an engine-reported raw total of 7. -/
def respScored : Response :=
  { total := .dictValue 7
    hits := [{ source := { style_number := some "A1" }, score := 3/10 },
             { source := { product_name := some "耳环" }, score := 9/10 }] }

/-- An engine whose primary query immediately returns `respScored`. -/
def engineScored : EngineBehavior :=
  { connect := .ok ()
    primaryOutcomes := fun _ => .ok respScored
    primaryGaps := fun _ => .fine
    fallbackChoiceIdx := 0
    fallbackOutcomes := fun _ => .ok respZero
    fallbackGaps := fun _ => .fine }

end ProductSearchAbility

/-- A capability over trivial context/result types whose validation
always returns false. -/
def abilityRejecting : Ability Unit Unit :=
  { name := "reject"
    version := "1.0.0"
    validate := fun _ => .ok false
    execute := fun _ => .ok () }

/-- A one-entry registry holding `abilityRejecting` under its name. -/
def mgrRejecting : AbilityManager Unit Unit := ⟨[("reject", abilityRejecting)]⟩

namespace ProductSearchAbility

/-! Helper lemmas about the two retry loops. -/

theorem fuzzyLoop_ok_attempt (minScore : ℚ) (outcomes : Nat → AttemptOutcome)
    (gaps : Nat → GapOutcome) (fuel att : Nat) (lastE : Option String)
    (resp : Response) (h : outcomes att = .ok resp) :
    fuzzyLoop minScore outcomes gaps (fuel + 1) att lastE
      = (.ok (processPrimaryResponse minScore resp), [.primaryQuery att]) := by
  simp [fuzzyLoop, h]

theorem fuzzyLoop_fail_step (minScore : ℚ) (outcomes : Nat → AttemptOutcome)
    (gaps : Nat → GapOutcome) (k att : Nat) (lastE : Option String) (m : String)
    (h : (outcomes att).failMsg = some m) (hg : gaps att = .fine) :
    fuzzyLoop minScore outcomes gaps (k + 2) att lastE
      = ((fuzzyLoop minScore outcomes gaps (k + 1) (att + 1) (some m)).1,
         .primaryQuery att :: .sleepEvent (att + 1)
           :: (fuzzyLoop minScore outcomes gaps (k + 1) (att + 1) (some m)).2) := by
  cases ho : outcomes att with
  | ok r => rw [ho] at h; simp [AttemptOutcome.failMsg] at h
  | connError m' =>
    rw [ho] at h; simp [AttemptOutcome.failMsg] at h; subst h
    simp [fuzzyLoop, ho, hg]
  | otherError m' =>
    rw [ho] at h; simp [AttemptOutcome.failMsg] at h; subst h
    simp [fuzzyLoop, ho]

theorem fuzzyLoop_fail_last (minScore : ℚ) (outcomes : Nat → AttemptOutcome)
    (gaps : Nat → GapOutcome) (att : Nat) (lastE : Option String) (m : String)
    (h : (outcomes att).failMsg = some m) :
    fuzzyLoop minScore outcomes gaps 1 att lastE
      = (.error (.connectionError (searchExhaustMsg (some m))), [.primaryQuery att]) := by
  cases ho : outcomes att with
  | ok r => rw [ho] at h; simp [AttemptOutcome.failMsg] at h
  | connError m' =>
    rw [ho] at h; simp [AttemptOutcome.failMsg] at h; subst h
    simp [fuzzyLoop, ho]
  | otherError m' =>
    rw [ho] at h; simp [AttemptOutcome.failMsg] at h; subst h
    simp [fuzzyLoop, ho]

/-- Every successful value of the primary retry loop is the processing of
some engine response. -/
theorem fuzzyLoop_ok_shape (minScore : ℚ) (outcomes : Nat → AttemptOutcome)
    (gaps : Nat → GapOutcome) :
    ∀ (fuel att : Nat) (lastE : Option String) (sr : SearchResult),
      (fuzzyLoop minScore outcomes gaps fuel att lastE).1 = .ok sr →
      ∃ resp, sr = processPrimaryResponse minScore resp := by
  intro fuel
  induction fuel with
  | zero => intro att lastE sr h; simp [fuzzyLoop] at h
  | succ n ih =>
    intro att lastE sr h
    cases ho : outcomes att with
    | ok r =>
      rw [fuzzyLoop_ok_attempt minScore outcomes gaps n att lastE r ho] at h
      simp at h
      exact ⟨r, h.symm⟩
    | connError m =>
      by_cases hn : n = 0
      · subst hn; simp [fuzzyLoop, ho] at h
      · cases hg : gaps att with
        | fine =>
          simp [fuzzyLoop, ho, hn, hg] at h
          exact ih (att + 1) (some m) sr h
        | raised gm => simp [fuzzyLoop, ho, hn, hg] at h
    | otherError m =>
      by_cases hn : n = 0
      · subst hn; simp [fuzzyLoop, ho] at h
      · simp [fuzzyLoop, ho, hn] at h
        exact ih (att + 1) (some m) sr h

/-- The primary retry loop never performs a fallback query. -/
theorem fuzzyLoop_no_fallbackQuery (minScore : ℚ) (outcomes : Nat → AttemptOutcome)
    (gaps : Nat → GapOutcome) :
    ∀ (fuel att : Nat) (lastE : Option String) (a : Nat),
      SearchEvent.fallbackQuery a ∉ (fuzzyLoop minScore outcomes gaps fuel att lastE).2 := by
  intro fuel
  induction fuel with
  | zero => intro att lastE a; simp [fuzzyLoop]
  | succ n ih =>
    intro att lastE a
    cases ho : outcomes att with
    | ok r => simp [fuzzyLoop, ho]
    | connError m =>
      by_cases hn : n = 0
      · subst hn; simp [fuzzyLoop, ho]
      · cases hg : gaps att with
        | fine => simp [fuzzyLoop, ho, hn, hg]; exact ih (att + 1) (some m) a
        | raised gm => simp [fuzzyLoop, ho, hn, hg]
    | otherError m =>
      by_cases hn : n = 0
      · subst hn; simp [fuzzyLoop, ho]
      · simp [fuzzyLoop, ho, hn]
        exact ih (att + 1) (some m) a

/-- Every nonempty run of the fallback retry loop opens with the fallback
query of its first attempt. -/
theorem fallbackLoop_head (kw : String) (outcomes : Nat → AttemptOutcome)
    (gaps : Nat → GapOutcome) (fuel att : Nat) (lastE : Option String) :
    ((fallbackLoop kw outcomes gaps (fuel + 1) att lastE).2).head?
      = some (.fallbackQuery att) := by
  cases ho : outcomes att with
  | ok r => simp [fallbackLoop, ho]
  | connError m =>
    by_cases hn : fuel = 0
    · subst hn; simp [fallbackLoop, ho]
    · cases hg : gaps att with
      | fine => simp [fallbackLoop, ho, hn, hg]
      | raised gm => simp [fallbackLoop, ho, hn, hg]
  | otherError m =>
    by_cases hn : fuel = 0
    · subst hn; simp [fallbackLoop, ho]
    · simp [fallbackLoop, ho, hn]

theorem fallbackLoop_fail_step (kw : String) (outcomes : Nat → AttemptOutcome)
    (gaps : Nat → GapOutcome) (k att : Nat) (lastE : Option String) (m : String)
    (h : (outcomes att).failMsg = some m) (hg : gaps att = .fine) :
    fallbackLoop kw outcomes gaps (k + 2) att lastE
      = ((fallbackLoop kw outcomes gaps (k + 1) (att + 1) (some m)).1,
         .fallbackQuery att :: .sleepEvent (att + 1)
           :: (fallbackLoop kw outcomes gaps (k + 1) (att + 1) (some m)).2) := by
  cases ho : outcomes att with
  | ok r => rw [ho] at h; simp [AttemptOutcome.failMsg] at h
  | connError m' =>
    rw [ho] at h; simp [AttemptOutcome.failMsg] at h; subst h
    simp [fallbackLoop, ho, hg]
  | otherError m' =>
    rw [ho] at h; simp [AttemptOutcome.failMsg] at h; subst h
    simp [fallbackLoop, ho]

theorem fuzzyLoop_last_trace (minScore : ℚ) (outcomes : Nat → AttemptOutcome)
    (gaps : Nat → GapOutcome) (att : Nat) (lastE : Option String) :
    (fuzzyLoop minScore outcomes gaps 1 att lastE).2 = [.primaryQuery att] := by
  cases ho : outcomes att <;> simp [fuzzyLoop, ho]

/-- The invariants of the result built from a successful primary response:
no kept hit scores below the minimum, the reported total is the size of
the filtered list, and the raw engine count is normalized into
`original_total`. -/
theorem processPrimaryResponse_spec (minScore : ℚ) (resp : Response) :
    (∀ p ∈ (processPrimaryResponse minScore resp).results, ¬ p.score < minScore)
    ∧ (processPrimaryResponse minScore resp).total
        = (processPrimaryResponse minScore resp).results.length
    ∧ (processPrimaryResponse minScore resp).results
        = (resp.hits.filter (fun h => !decide (h.score < minScore))).map primaryProduct
    ∧ (processPrimaryResponse minScore resp).original_total
        = some (normalizeTotal resp.total resp.hits.length)
    ∧ (processPrimaryResponse minScore resp).success = true
    ∧ (processPrimaryResponse minScore resp).is_fallback = false := by
  refine ⟨?_, rfl, rfl, rfl, rfl, rfl⟩
  intro p hp
  simp only [processPrimaryResponse, List.mem_map, List.mem_filter] at hp
  obtain ⟨h, ⟨_, hke⟩, rfl⟩ := hp
  simp only [Bool.not_eq_true', decide_eq_false_iff_not] at hke
  simpa [primaryProduct] using hke

theorem fuzzy_search_no_fallbackQuery (minScore : ℚ) (outcomes : Nat → AttemptOutcome)
    (gaps : Nat → GapOutcome) (a : Nat) :
    SearchEvent.fallbackQuery a ∉ (fuzzy_search minScore outcomes gaps).2 :=
  fuzzyLoop_no_fallbackQuery minScore outcomes gaps max_attempts 0 none a

theorem get_fallback_recommendations_head (cfg : Config) (eng : EngineBehavior) :
    ((get_fallback_recommendations cfg eng).2).head? = some (.fallbackQuery 0) :=
  fallbackLoop_head (chooseFallbackKeyword cfg.fallback_keywords eng.fallbackChoiceIdx)
    eng.fallbackOutcomes eng.fallbackGaps 2 0 none

theorem fallbackLoop_fail_last (kw : String) (outcomes : Nat → AttemptOutcome)
    (gaps : Nat → GapOutcome) (att : Nat) (lastE : Option String) (m : String)
    (h : (outcomes att).failMsg = some m) :
    fallbackLoop kw outcomes gaps 1 att lastE
      = (.ok (fallbackExhaustResult kw (some m)), [.fallbackQuery att]) := by
  cases ho : outcomes att with
  | ok r => rw [ho] at h; simp [AttemptOutcome.failMsg] at h
  | connError m' =>
    rw [ho] at h; simp [AttemptOutcome.failMsg] at h; subst h
    simp [fallbackLoop, ho]
  | otherError m' =>
    rw [ho] at h; simp [AttemptOutcome.failMsg] at h; subst h
    simp [fallbackLoop, ho]

end ProductSearchAbility

namespace Claims

open ProductSearchAbility

/-- C5: for every name not registered in the registry, `execute_ability`
fails with the `KeyError` carrying the missing name, and neither
`validate` nor `execute` of any capability is called (the call trace is
empty). -/
theorem C5_dispatch_unregistered_notFound {Ctx Res : Type}
    (m : AbilityManager Ctx Res) (name : String) (ctx : Ctx)
    (h : m.abilities.lookup name = none) :
    m.execute_ability name ctx
      = (.error (.keyError ("Ability " ++ name ++ " not found")), []) := by
  simp [AbilityManager.execute_ability, AbilityManager.get_ability, h]

/-- Witness for C5: dispatching on an empty registry. -/
theorem C5_witness :
    @AbilityManager.execute_ability Unit Unit ⟨[]⟩ "product_search" ()
      = (.error (.keyError ("Ability " ++ "product_search" ++ " not found")), []) :=
  C5_dispatch_unregistered_notFound ⟨[]⟩ "product_search" () rfl

/-- C6: for every registered capability, dispatch calls `validate` first;
if `validate` returns false it fails with the `ValueError` naming the
capability and never calls `execute`; `execute` runs only after
`validate` returned true, and its successful result is returned
unchanged. -/
theorem C6_dispatch_validate_gate {Ctx Res : Type}
    (m : AbilityManager Ctx Res) (name : String) (ctx : Ctx) (a : Ability Ctx Res)
    (h : m.abilities.lookup name = some a) :
    ((m.execute_ability name ctx).2.head? = some (.validateCall name))
    ∧ (a.validate ctx = .ok false →
        (m.execute_ability name ctx).1
            = .error (.valueError ("Invalid context for ability " ++ name))
        ∧ MgrEvent.executeCall name ∉ (m.execute_ability name ctx).2)
    ∧ (MgrEvent.executeCall name ∈ (m.execute_ability name ctx).2 →
        a.validate ctx = .ok true)
    ∧ (∀ r, a.validate ctx = .ok true → a.execute ctx = .ok r →
        m.execute_ability name ctx = (.ok r, [.validateCall name, .executeCall name])) := by
  have hget : m.get_ability name = .ok a := by
    simp [AbilityManager.get_ability, h]
  cases hv : a.validate ctx with
  | error e =>
    refine ⟨?_, ?_, ?_, ?_⟩ <;>
      simp [AbilityManager.execute_ability, hget, hv]
  | ok b =>
    cases b with
    | false =>
      refine ⟨?_, ?_, ?_, ?_⟩ <;>
        simp [AbilityManager.execute_ability, hget, hv]
    | true =>
      cases he : a.execute ctx with
      | error e =>
        refine ⟨?_, ?_, ?_, ?_⟩ <;>
          simp [AbilityManager.execute_ability, hget, hv, he]
      | ok r =>
        refine ⟨?_, ?_, ?_, ?_⟩ <;>
          simp [AbilityManager.execute_ability, hget, hv, he]

/-- Witness for C6: a registered capability whose validation rejects. -/
theorem C6_witness :
    (AbilityManager.execute_ability mgrRejecting "reject" ()).1
        = .error (.valueError ("Invalid context for ability " ++ "reject"))
    ∧ MgrEvent.executeCall "reject" ∉ (AbilityManager.execute_ability mgrRejecting "reject" ()).2 :=
  (C6_dispatch_validate_gate mgrRejecting "reject" () abilityRejecting rfl).2.1 rfl

/-- C2: a context whose keyword strips to the empty string is rejected
with the structured empty-keyword result (`success=false`, empty items,
`total=0`, `is_fallback=false`) and an empty interaction trace: no
connection is acquired and no query is sent. -/
theorem C2_empty_keyword_no_external_call (cfg : Config) (eng : EngineBehavior)
    (ctx : Context) (h : pyStrip (ctx.keyword.getD "") = "") :
    execute cfg eng ctx
      = ({ success := false, error := some "Empty search keyword",
           results := [], total := 0, is_fallback := false }, []) := by
  simp [execute, h, emptyKeywordResult]

/-- Witness for C2: a whitespace-only keyword. -/
theorem C2_witness :
    execute defaultConfig engineAllFail { keyword := some "   " }
      = ({ success := false, error := some "Empty search keyword",
           results := [], total := 0, is_fallback := false }, []) :=
  C2_empty_keyword_no_external_call defaultConfig engineAllFail
    { keyword := some "   " } (by decide)

/-- C7: every successful primary search result keeps no hit scoring below
the configured minimum score, reports `total` as the count of hits left
after that filtering, and carries the engine-reported count (normalized
by `normalizeTotal`) as `original_total`. -/
theorem C7_primary_result_invariants (minScore : ℚ) (outcomes : Nat → AttemptOutcome)
    (gaps : Nat → GapOutcome) (sr : SearchResult)
    (h : (fuzzy_search minScore outcomes gaps).1 = .ok sr) :
    (∀ p ∈ sr.results, ¬ p.score < minScore)
    ∧ sr.total = sr.results.length
    ∧ ∃ resp, sr = processPrimaryResponse minScore resp
        ∧ sr.results
            = (resp.hits.filter (fun hh => !decide (hh.score < minScore))).map primaryProduct
        ∧ sr.original_total = some (normalizeTotal resp.total resp.hits.length) := by
  obtain ⟨resp, rfl⟩ := fuzzyLoop_ok_shape minScore outcomes gaps max_attempts 0 none sr h
  obtain ⟨h1, h2, h3, h4, _, _⟩ := processPrimaryResponse_spec minScore resp
  exact ⟨h1, h2, resp, rfl, h3, h4⟩

/-- Witness for C7: the mixed-score response `respScored`. -/
theorem C7_witness :
    (∀ p ∈ (processPrimaryResponse (1/2) respScored).results, ¬ p.score < (1/2 : ℚ))
    ∧ (processPrimaryResponse (1/2) respScored).total
        = (processPrimaryResponse (1/2) respScored).results.length := by
  have h := C7_primary_result_invariants (1/2) engineScored.primaryOutcomes
    engineScored.primaryGaps (processPrimaryResponse (1/2) respScored) rfl
  exact ⟨h.1, h.2.1⟩

/-- C8 counterexample: for a response whose `hits.total` is a structure
without a `value` field and which returns 2 hits, the code stores the
unparsed structure itself as the (original) total rather than the hit
count 2, contradicting the claim that the count of returned hits is used
whenever neither parseable shape applies. -/
theorem C8_counterexample_dict_without_value :
    (processPrimaryResponse (1/2)
        { total := .dictNoValue
          hits := [{ source := {}, score := 1 }, { source := {}, score := 1 }] }).original_total
      = some TotalCount.rawDict
    ∧ some TotalCount.rawDict ≠ some (TotalCount.num 2) :=
  ⟨rfl, by decide⟩

/-- C8 amended: a total reported as a structure with a `value` field uses
that value; a scalar total is used as-is; the count of returned hits is
substituted only when reading the total raises (`KeyError`/`TypeError`,
e.g. the field is missing); a structure without a `value` field is
passed through unparsed rather than replaced by the hit count. -/
theorem C8_amended_total_normalization (v n : Nat) :
    normalizeTotal (.dictValue v) n = .num v
    ∧ normalizeTotal (.scalar v) n = .num v
    ∧ normalizeTotal .missing n = .num n
    ∧ normalizeTotal .dictNoValue n = .rawDict :=
  ⟨rfl, rfl, rfl, rfl⟩

/-- C1: when every one of the 3 primary-query attempts fails (and control
reaches each attempt, i.e. the inter-attempt reconnect gaps do not
raise), `_fuzzy_search` raises a `ConnectionError` whose message wraps
the last observed cause, and `execute` surfaces it to the caller as an
error result (success false, error message set, no items) rather than an
ordinary search result. -/
theorem C1_primary_exhaustion_search_unavailable (cfg : Config) (eng : EngineBehavior)
    (ctx : Context) (m0 m1 m2 : String)
    (hk : pyStrip (ctx.keyword.getD "") ≠ "")
    (hc : eng.connect = .ok ())
    (h0 : (eng.primaryOutcomes 0).failMsg = some m0)
    (h1 : (eng.primaryOutcomes 1).failMsg = some m1)
    (h2 : (eng.primaryOutcomes 2).failMsg = some m2)
    (hg0 : eng.primaryGaps 0 = .fine)
    (hg1 : eng.primaryGaps 1 = .fine) :
    (fuzzy_search cfg.min_score eng.primaryOutcomes eng.primaryGaps).1
        = .error (.connectionError (searchExhaustMsg (some m2)))
    ∧ (execute cfg eng ctx).1 = searchErrorResult (searchExhaustMsg (some m2)) := by
  have e1 := fuzzyLoop_fail_step cfg.min_score eng.primaryOutcomes eng.primaryGaps
    1 0 none m0 h0 hg0
  have e2 := fuzzyLoop_fail_step cfg.min_score eng.primaryOutcomes eng.primaryGaps
    0 1 (some m0) m1 h1 hg1
  have e3 := fuzzyLoop_fail_last cfg.min_score eng.primaryOutcomes eng.primaryGaps
    2 (some m1) m2 h2
  have hfz : (fuzzy_search cfg.min_score eng.primaryOutcomes eng.primaryGaps).1
      = .error (.connectionError (searchExhaustMsg (some m2))) := by
    simp [fuzzy_search, max_attempts, e1, e2, e3]
  refine ⟨hfz, ?_⟩
  simp [execute, hk, hc, hfz, PyError.msg]

/-- Witness for C1: all three primary attempts raise a connection error. -/
theorem C1_witness :
    (fuzzy_search defaultConfig.min_score engineAllFail.primaryOutcomes
        engineAllFail.primaryGaps).1
        = .error (.connectionError (searchExhaustMsg (some "boom")))
    ∧ (execute defaultConfig engineAllFail { keyword := some "项链" }).1
        = searchErrorResult (searchExhaustMsg (some "boom")) :=
  C1_primary_exhaustion_search_unavailable defaultConfig engineAllFail
    { keyword := some "项链" } "boom" "boom" "boom"
    (by decide) rfl rfl rfl rfl rfl rfl

/-- C9: when attempts 1 and 2 fail (with benign reconnect gaps), the
backoff waits are exactly 1 time unit after attempt 1 and 2 time units
after attempt 2 (`1 * (attempt + 1)`, linear growth), and no wait
follows the third and final attempt whatever its outcome. -/
theorem C9_linear_backoff (minScore : ℚ) (outcomes : Nat → AttemptOutcome)
    (gaps : Nat → GapOutcome) (m0 m1 : String)
    (h0 : (outcomes 0).failMsg = some m0)
    (h1 : (outcomes 1).failMsg = some m1)
    (hg0 : gaps 0 = .fine) (hg1 : gaps 1 = .fine) :
    (fuzzy_search minScore outcomes gaps).2
      = [.primaryQuery 0, .sleepEvent 1, .primaryQuery 1, .sleepEvent 2, .primaryQuery 2] := by
  have e1 := fuzzyLoop_fail_step minScore outcomes gaps 1 0 none m0 h0 hg0
  have e2 := fuzzyLoop_fail_step minScore outcomes gaps 0 1 (some m0) m1 h1 hg1
  have e3 := fuzzyLoop_last_trace minScore outcomes gaps 2 (some m1)
  simp [fuzzy_search, max_attempts, e1, e2, e3]

/-- Witness for C9: the always-failing engine sleeps 1 then 2 units. -/
theorem C9_witness :
    (fuzzy_search defaultConfig.min_score engineAllFail.primaryOutcomes
        engineAllFail.primaryGaps).2
      = [.primaryQuery 0, .sleepEvent 1, .primaryQuery 1, .sleepEvent 2, .primaryQuery 2] :=
  C9_linear_backoff defaultConfig.min_score engineAllFail.primaryOutcomes
    engineAllFail.primaryGaps "boom" "boom" rfl rfl rfl rfl

/-- C4: when the fallback query is triggered and all 3 of its attempts
fail (with benign reconnect gaps), `execute` returns the structured
degradation result — success false, empty items, zero total,
`is_fallback=true`, the chosen fallback keyword, and an error message
wrapping the last cause — instead of propagating an exception. -/
theorem C4_fallback_exhaustion_structured (cfg : Config) (eng : EngineBehavior)
    (ctx : Context) (sr : SearchResult) (f0 f1 f2 : String)
    (hk : pyStrip (ctx.keyword.getD "") ≠ "")
    (hc : eng.connect = .ok ())
    (hp : (fuzzy_search cfg.min_score eng.primaryOutcomes eng.primaryGaps).1 = .ok sr)
    (ht : sr.total = 0)
    (hen : cfg.fallback_enabled = true)
    (hf0 : (eng.fallbackOutcomes 0).failMsg = some f0)
    (hf1 : (eng.fallbackOutcomes 1).failMsg = some f1)
    (hf2 : (eng.fallbackOutcomes 2).failMsg = some f2)
    (hg0 : eng.fallbackGaps 0 = .fine)
    (hg1 : eng.fallbackGaps 1 = .fine) :
    (execute cfg eng ctx).1
      = { success := false
          results := []
          total := 0
          original_total := some (.num 0)
          is_fallback := true
          fallback_keyword :=
            some (chooseFallbackKeyword cfg.fallback_keywords eng.fallbackChoiceIdx)
          original_keyword := some (pyStrip (ctx.keyword.getD ""))
          error := some ("Fallback search failed: " ++ f2) } := by
  have e1 := fallbackLoop_fail_step
    (chooseFallbackKeyword cfg.fallback_keywords eng.fallbackChoiceIdx)
    eng.fallbackOutcomes eng.fallbackGaps 1 0 none f0 hf0 hg0
  have e2 := fallbackLoop_fail_step
    (chooseFallbackKeyword cfg.fallback_keywords eng.fallbackChoiceIdx)
    eng.fallbackOutcomes eng.fallbackGaps 0 1 (some f0) f1 hf1 hg1
  have e3 := fallbackLoop_fail_last
    (chooseFallbackKeyword cfg.fallback_keywords eng.fallbackChoiceIdx)
    eng.fallbackOutcomes eng.fallbackGaps 2 (some f1) f2 hf2
  have hfb : (get_fallback_recommendations cfg eng).1
      = .ok (fallbackExhaustResult
          (chooseFallbackKeyword cfg.fallback_keywords eng.fallbackChoiceIdx) (some f2)) := by
    simp [get_fallback_recommendations, max_attempts, e1, e2, e3]
  simp [execute, hk, hc, hp, ht, hen, hfb, fallbackExhaustResult]

/-- Witness for C4: zero primary hits, then all fallback attempts fail. -/
theorem C4_witness :
    (execute defaultConfig engineZeroHits { keyword := some "独角兽" }).1
      = { success := false
          results := []
          total := 0
          original_total := some (.num 0)
          is_fallback := true
          fallback_keyword :=
            some (chooseFallbackKeyword defaultConfig.fallback_keywords 0)
          original_keyword := some (pyStrip "独角兽")
          error := some ("Fallback search failed: " ++ "fb down") } :=
  C4_fallback_exhaustion_structured defaultConfig engineZeroHits
    { keyword := some "独角兽" }
    (processPrimaryResponse defaultConfig.min_score respZero)
    "fb down" "fb down" "fb down"
    (by decide) rfl rfl rfl rfl rfl rfl rfl rfl rfl

/-- C3: the fallback recommendation query runs if and only if the keyword
survives stripping, the client is acquired, the primary query completes
successfully with zero post-filter hits, and fallback is enabled in
configuration; moreover a primary response whose hits all score below
the minimum score yields a zero-hit result, and with fallback disabled a
zero-hit primary result is returned as-is (success true, empty items,
not a fallback). -/
theorem C3_fallback_trigger_iff (cfg : Config) (eng : EngineBehavior) (ctx : Context) :
    ((∃ a, SearchEvent.fallbackQuery a ∈ (execute cfg eng ctx).2) ↔
      (pyStrip (ctx.keyword.getD "") ≠ ""
        ∧ eng.connect = .ok ()
        ∧ ∃ sr, (fuzzy_search cfg.min_score eng.primaryOutcomes eng.primaryGaps).1 = .ok sr
            ∧ sr.total = 0 ∧ cfg.fallback_enabled = true))
    ∧ (∀ resp : Response, (∀ hh ∈ resp.hits, hh.score < cfg.min_score) →
        (processPrimaryResponse cfg.min_score resp).total = 0)
    ∧ (∀ sr, pyStrip (ctx.keyword.getD "") ≠ "" → eng.connect = .ok () →
        (fuzzy_search cfg.min_score eng.primaryOutcomes eng.primaryGaps).1 = .ok sr →
        sr.total = 0 → cfg.fallback_enabled = false →
        (execute cfg eng ctx).1 = sr ∧ sr.success = true ∧ sr.results = []
          ∧ sr.is_fallback = false) := by
  refine ⟨?_, ?_, ?_⟩
  · by_cases hk : pyStrip (ctx.keyword.getD "") = ""
    · constructor
      · rintro ⟨a, ha⟩
        simp [execute, hk] at ha
      · rintro ⟨hk', _⟩
        exact absurd hk hk'
    · cases hc : eng.connect with
      | error m =>
        constructor
        · rintro ⟨a, ha⟩
          simp [execute, hk, hc] at ha
        · rintro ⟨_, hc', _⟩
          exact Except.noConfusion hc'
      | ok u =>
        cases u
        cases hq : (fuzzy_search cfg.min_score eng.primaryOutcomes eng.primaryGaps).1 with
        | error e =>
          constructor
          · rintro ⟨a, ha⟩
            simp [execute, hk, hc, hq] at ha
            exact absurd ha (fuzzy_search_no_fallbackQuery cfg.min_score
              eng.primaryOutcomes eng.primaryGaps a)
          · rintro ⟨_, _, sr', hq', _, _⟩
            exact Except.noConfusion hq'
        | ok sr =>
          by_cases hcond : sr.total = 0 ∧ cfg.fallback_enabled = true
          · constructor
            · intro _
              exact ⟨hk, rfl, sr, rfl, hcond.1, hcond.2⟩
            · intro _
              refine ⟨0, ?_⟩
              have hh : SearchEvent.fallbackQuery 0 ∈ (get_fallback_recommendations cfg eng).2 :=
                List.mem_of_mem_head?
                  (by simp [get_fallback_recommendations_head cfg eng])
              cases hfr : (get_fallback_recommendations cfg eng).1 with
              | error e => simp [execute, hk, hc, hq, hcond, hfr, hh]
              | ok f => simp [execute, hk, hc, hq, hcond, hfr, hh]
          · constructor
            · rintro ⟨a, ha⟩
              simp [execute, hk, hc, hq, hcond] at ha
              exact absurd ha (fuzzy_search_no_fallbackQuery cfg.min_score
                eng.primaryOutcomes eng.primaryGaps a)
            · rintro ⟨_, _, sr', hq', ht', hen'⟩
              obtain rfl : sr = sr' := by injection hq'
              exact absurd ⟨ht', hen'⟩ hcond
  · intro resp hall
    have hnil : resp.hits.filter (fun hh => !decide (hh.score < cfg.min_score)) = [] := by
      rw [List.filter_eq_nil_iff]
      intro hh hm
      simp [hall hh hm]
    simp [processPrimaryResponse, hnil]
  · intro sr hk hc hq ht hen
    obtain ⟨resp, rfl⟩ := fuzzyLoop_ok_shape cfg.min_score eng.primaryOutcomes
      eng.primaryGaps max_attempts 0 none sr hq
    have hlen : (processPrimaryResponse cfg.min_score resp).results.length = 0 := by
      rw [← (processPrimaryResponse_spec cfg.min_score resp).2.1]
      exact ht
    refine ⟨?_, rfl, List.eq_nil_of_length_eq_zero hlen, rfl⟩
    have hcond : ¬ ((processPrimaryResponse cfg.min_score resp).total = 0
        ∧ cfg.fallback_enabled = true) := by
      rw [hen]
      simp
    simp [execute, hk, hc, hq, hcond]

/-- Witness for C3: an engine with zero primary hits and fallback enabled
does run the fallback query. -/
theorem C3_witness :
    ∃ a, SearchEvent.fallbackQuery a
      ∈ (execute defaultConfig engineZeroHits { keyword := some "独角" }).2 := by
  have h := (C3_fallback_trigger_iff defaultConfig engineZeroHits { keyword := some "独角" }).1
  exact h.mpr ⟨by decide, rfl,
    processPrimaryResponse defaultConfig.min_score respZero, rfl, rfl, rfl⟩

/-- C10: for every context that passes validation, `execute` returns a
result dictionary (the model of its body, `try`/`except Exception`
included, is a total function) and converts every exception raised
during connection acquisition, the primary query (retry exhaustion
included), or fallback handling into the structured error result:
success false, empty results, zero total, `is_fallback=false`, and an
error message. -/
theorem C10_execute_never_raises (cfg : Config) (eng : EngineBehavior) (ctx : Context)
    (_hv : validate ctx = true) :
    (∃ r tr, execute cfg eng ctx = (r, tr))
    ∧ (pyStrip (ctx.keyword.getD "") = "" →
        (execute cfg eng ctx).1 = emptyKeywordResult)
    ∧ (∀ m, pyStrip (ctx.keyword.getD "") ≠ "" → eng.connect = .error m →
        (execute cfg eng ctx).1 = searchErrorResult m)
    ∧ (∀ e, pyStrip (ctx.keyword.getD "") ≠ "" → eng.connect = .ok () →
        (fuzzy_search cfg.min_score eng.primaryOutcomes eng.primaryGaps).1 = .error e →
        (execute cfg eng ctx).1 = searchErrorResult e.msg)
    ∧ (∀ e sr, pyStrip (ctx.keyword.getD "") ≠ "" → eng.connect = .ok () →
        (fuzzy_search cfg.min_score eng.primaryOutcomes eng.primaryGaps).1 = .ok sr →
        sr.total = 0 → cfg.fallback_enabled = true →
        (get_fallback_recommendations cfg eng).1 = .error e →
        (execute cfg eng ctx).1 = searchErrorResult e.msg) := by
  refine ⟨⟨_, _, rfl⟩, ?_, ?_, ?_, ?_⟩
  · intro hk
    simp [execute, hk]
  · intro m hk hc
    simp [execute, hk, hc]
  · intro e hk hc hq
    simp [execute, hk, hc, hq]
  · intro e sr hk hc hq ht hen hfb
    simp [execute, hk, hc, hq, ht, hen, hfb]

/-- Witness for C10: primary retry exhaustion is converted into the
structured error result. -/
theorem C10_witness :
    (execute defaultConfig engineAllFail { keyword := some "x" }).1
      = searchErrorResult (searchExhaustMsg (some "boom")) := by
  have h := C10_execute_never_raises defaultConfig engineAllFail { keyword := some "x" } rfl
  exact h.2.2.2.1 (.connectionError (searchExhaustMsg (some "boom"))) (by decide) rfl rfl

end Claims

end AgentAbilityEngine
